import Mathlib

/-!
Verification development for the arisvideo-python repository.

The definitions below are a shallow embedding of the timing/synchronization
core of the repository: `src/services/audio_processor.py`,
`src/services/manim_script_modifier.py`, `src/services/status_tracker.py`
and the render-retry supervision in `src/app.py`.  Machine floats are
idealized as exact rationals; external effects (the speech provider, the
media toolchain, the LLM) are turned into explicit inputs recording the
observations the code makes of them.
-/

namespace ArisVideo

/-- ASCII whitespace as stripped by Python `str.strip()`. -/
def isPySpace (c : Char) : Bool :=
  c == ' ' || c == '\t' || c == '\n' || c == '\r' || c == '\x0b' || c == '\x0c'

/-- Python `str.strip()`: remove leading and trailing whitespace. -/
def pyStrip (s : String) : String :=
  String.mk (((s.data.dropWhile isPySpace).reverse.dropWhile isPySpace).reverse)

/-- Zero-pad the decimal rendering of a natural number to the given width,
as Python `f"{n:0Nd}"` does for nonnegative `n`. -/
def padNum (width : Nat) (n : Nat) : String :=
  let s := toString n
  if s.length < width then String.mk (List.replicate (width - s.length) '0') ++ s else s

/-- Python float `%` for a positive modulus, idealized over `ℚ`:
`q % m = q - m * floor (q / m)`. -/
def pyMod (q m : ℚ) : ℚ := q - m * ⌊q / m⌋

/-- `format_srt_time` (src/services/audio_processor.py):
`HH:MM:SS,mmm` computed by integer division/modulo from seconds
(`int()` on the nonnegative intermediate values is the floor). -/
def format_srt_time (seconds : ℚ) : String :=
  let hours := (⌊seconds / 3600⌋).toNat
  let minutes := (⌊pyMod seconds 3600 / 60⌋).toNat
  let secs := (⌊pyMod seconds 60⌋).toNat
  let millis := (⌊pyMod seconds 1 * 1000⌋).toNat
  padNum 2 hours ++ ":" ++ padNum 2 minutes ++ ":" ++ padNum 2 secs ++ "," ++ padNum 3 millis

/-- `format_vtt_time` (src/services/audio_processor.py):
identical arithmetic, period decimal separator. -/
def format_vtt_time (seconds : ℚ) : String :=
  let hours := (⌊seconds / 3600⌋).toNat
  let minutes := (⌊pyMod seconds 3600 / 60⌋).toNat
  let secs := (⌊pyMod seconds 60⌋).toNat
  let millis := (⌊pyMod seconds 1 * 1000⌋).toNat
  padNum 2 hours ++ ":" ++ padNum 2 minutes ++ ":" ++ padNum 2 secs ++ "." ++ padNum 3 millis

/-- The text actually handed to the speech provider for one segment in
`create_synchronized_audio` (src/services/audio_processor.py lines 376-391):
strip, then substitute the fallback phrase when shorter than 3 characters. -/
def syncSynthesisInput (text : String) : String :=
  let t := pyStrip text
  if t.length < 3 then "Pause." else t

/-- The text actually handed to the speech provider in `generate_tts_audio`
(src/services/audio_processor.py lines 1005-1020): substitute the fallback
phrase when empty or shorter than 3 characters after stripping, then strip. -/
def generateTtsInput (text : String) : String :=
  let t := if text = "" ∨ (pyStrip text).length < 3 then "Educational animation content." else text
  pyStrip t

/-!
Timeline reconciler: `create_synchronized_audio`
(src/services/audio_processor.py lines 340-519).

A `SynthSeg` is one narration segment together with the environment
observations the code makes for it: the duration the probe reports for the
synthesized clip (`measured`) and whether the silence-padding subprocess
exits successfully (`padOk`).
-/

structure SynthSeg where
  start_time : ℚ
  end_time : Option ℚ
  text : String
  measured : ℚ
  padOk : Bool
deriving DecidableEq, Repr

/-- Lines 401-403: the probed duration, replaced by
`max(end_time - start_time, 1.0)` when nonpositive (absent keys default 0). -/
def initialDuration (s : SynthSeg) : ℚ :=
  if s.measured ≤ 0 then max (s.end_time.getD 0 - s.start_time) 1 else s.measured

/-- Lines 406-407: `planned_end`, defaulting to `start + actual_duration`
when the segment carries no end time. -/
def plannedEnd (s : SynthSeg) : ℚ :=
  match s.end_time with
  | some e => e
  | none => s.start_time + initialDuration s

/-- Line 410: `planned_duration = planned_end - start_time`. -/
def plannedDuration (s : SynthSeg) : ℚ := plannedEnd s - s.start_time

/-- Lines 413-452: the segment duration after Pass A.  When the audio is
shorter than its visual slot by more than the 100 ms tolerance, a successful
padding run sets it to the planned duration; a failed padding run keeps the
original; otherwise the measured duration is kept unchanged. -/
def passADuration (s : SynthSeg) : ℚ :=
  let d := initialDuration s
  let pd := plannedDuration s
  if d < pd - 1/10 then (if s.padOk then pd else d) else d

/-- Lines 413-414: the duration of the silence tail appended by a padding
run, when one is attempted. -/
def silenceTail (s : SynthSeg) : Option ℚ :=
  if initialDuration s < plannedDuration s - 1/10 then
    some (plannedDuration s - initialDuration s)
  else none

/-- Lines 454-455: `adjusted_end = max(planned_end, start_time + duration)`,
stored as both `end_time` and `planned_end` of the per-segment record. -/
def adjustedEnd (s : SynthSeg) : ℚ :=
  max (plannedEnd s) (s.start_time + passADuration s)

/-- The per-segment record appended to `audio_segments` (lines 466-474). -/
structure ASeg where
  start_time : ℚ
  end_time : ℚ
  duration : ℚ
  text : String
  planned_start : ℚ
  planned_end : ℚ
deriving DecidableEq, Repr

/-- Pass A for one segment (lines 376-474): the record appended to
`audio_segments`, with the synthesis text after strip/fallback. -/
def passA (s : SynthSeg) : ASeg :=
  { start_time := s.start_time
    end_time := adjustedEnd s
    duration := passADuration s
    text := syncSynthesisInput s.text
    planned_start := s.start_time
    planned_end := adjustedEnd s }

/-- The cumulative re-sequencing pass (lines 478-483): walk the records in
order, forcing `start = cumulative_time` and `end = start + duration`. -/
def cumulativePass (t : ℚ) : List ASeg → List ASeg
  | [] => []
  | a :: rest =>
      { a with start_time := t, end_time := t + a.duration } ::
        cumulativePass (t + a.duration) rest

/-- One entry of the metadata list returned to the caller (lines 500-510). -/
structure SegMeta where
  segment_index : Nat
  planned_start : ℚ
  planned_end : ℚ
  actual_start : ℚ
  actual_end : ℚ
  audio_duration : ℚ
  text : String
deriving DecidableEq, Repr

/-- Lines 500-510: metadata built from the re-sequenced records, carrying
the running index of the enumeration. -/
def metadataOf (i : Nat) : List ASeg → List SegMeta
  | [] => []
  | a :: rest =>
      { segment_index := i
        planned_start := a.planned_start
        planned_end := a.planned_end
        actual_start := a.start_time
        actual_end := a.end_time
        audio_duration := a.duration
        text := a.text } :: metadataOf (i + 1) rest

/-- Lines 358-364: drop segments whose stripped text is empty. -/
def validSegments (segs : List SynthSeg) : List SynthSeg :=
  segs.filter fun s => pyStrip s.text ≠ ""

/-- The timing skeleton of `create_synchronized_audio` (lines 340-519):
filter invalid segments, fail when none remain, otherwise run Pass A per
segment, re-sequence cumulatively and emit the metadata list. -/
def create_synchronized_audio (segs : List SynthSeg) : Except String (List SegMeta) :=
  let valid := validSegments segs
  if valid.isEmpty then
    Except.error "No valid narration segments found - all segments are empty"
  else
    Except.ok (metadataOf 0 (cumulativePass 0 (valid.map passA)))

/-!
Timing adjustments: `calculate_wait_adjustments`
(src/services/manim_script_modifier.py lines 16-78).
-/

/-- A timing segment as consumed by `calculate_wait_adjustments`. -/
structure TimingSeg where
  start_time : ℚ
  end_time : ℚ
  description : String
deriving DecidableEq, Repr

/-- A recorded `TimingAdjustment` (lines 56-62). -/
structure Adjustment where
  segment_index : Nat
  wait_duration : ℚ
  video_duration : ℚ
  audio_duration : ℚ
  segment_description : String
deriving DecidableEq, Repr

/-- Python `round` to the nearest integer, ties to even, idealized on `ℚ`. -/
def pyRoundInt (q : ℚ) : ℤ :=
  let f := ⌊q⌋
  let r := q - f
  if r < 1/2 then f else if 1/2 < r then f + 1 else if f % 2 = 0 then f else f + 1

/-- Python `round(x, 2)` idealized on `ℚ`. -/
def pyRound2 (q : ℚ) : ℚ := (pyRoundInt (q * 100) : ℚ) / 100

/-- The loop body of `calculate_wait_adjustments` over the zipped pairs,
carrying the enumeration index. -/
def waitAdjustmentsAux (threshold : ℚ) (i : Nat) :
    List (TimingSeg × SegMeta) → List Adjustment
  | [] => []
  | (t, a) :: rest =>
      let video_duration := t.end_time - t.start_time
      let audio_duration := a.audio_duration
      let duration_diff := audio_duration - video_duration
      if threshold < duration_diff then
        { segment_index := i
          wait_duration := pyRound2 duration_diff
          video_duration := pyRound2 video_duration
          audio_duration := pyRound2 audio_duration
          segment_description := t.description } :: waitAdjustmentsAux threshold (i + 1) rest
      else waitAdjustmentsAux threshold (i + 1) rest

/-- `calculate_wait_adjustments` (lines 16-78): zip the timing segments with
the audio metadata and record an adjustment wherever the audio outruns the
video by more than the threshold (default 0.1 s). -/
def calculate_wait_adjustments (timing_segments : List TimingSeg)
    (audio_segments : List SegMeta) (threshold : ℚ := 1/10) : List Adjustment :=
  waitAdjustmentsAux threshold 0 (timing_segments.zip audio_segments)

/-!
Narration composer: `generate_timed_narration`
(src/services/audio_processor.py lines 216-337).

The LLM interaction is abstracted into an observed outcome: the call raised,
its response was unparseable as JSON (after fence-stripping and bracket
extraction), or it parsed into a list of raw segments.
-/

/-- A raw narration segment as read from the parsed JSON (absent keys take
the defaults of lines 302-304). -/
structure RawNarration where
  start_time : ℚ
  end_time : ℚ
  text : String
deriving DecidableEq, Repr

/-- A cleaned narration segment (lines 315-320). -/
structure NarrationSeg where
  start_time : ℚ
  end_time : ℚ
  text : String
  words : Nat
deriving DecidableEq, Repr

/-- Python `str.split()` word count: `len(text.split())`. -/
def pyWordCount (s : String) : Nat :=
  (s.splitOn " ").filter (fun w => w ≠ "") |>.length

/-- Lines 301-320: validate and clean one parsed segment. -/
def cleanSegment (i : Nat) (s : RawNarration) : NarrationSeg :=
  let text := pyStrip s.text
  let text :=
    if text = "" ∨ text.length < 3 then "Animation segment " ++ toString (i + 1) ++ "."
    else text
  let end_time := if s.end_time ≤ s.start_time then s.start_time + 3 else s.end_time
  { start_time := s.start_time, end_time := end_time, text := text, words := pyWordCount text }

/-- Fold over the parsed list with the enumeration index (lines 300-322). -/
def cleanSegments (i : Nat) : List RawNarration → List NarrationSeg
  | [] => []
  | s :: rest => cleanSegment i s :: cleanSegments (i + 1) rest

/-- The observed outcome of the narration LLM call. -/
inductive LLMNarrationOutcome where
  | raised
  | unparseable
  | parsed (segs : List RawNarration)
deriving DecidableEq, Repr

/-- The fixed fallback narration text (lines 329 and 336). -/
def fallbackNarrationText : String :=
  "Educational animation explaining the concept step by step."

/-- `generate_timed_narration` (lines 216-337) as a function of the LLM
outcome: exception → one generic segment spanning 0-30 s; unparseable JSON →
one generic segment spanning 0-(10 × number of timing segments); parsed →
the cleaned segments. -/
def generate_timed_narration (outcome : LLMNarrationOutcome)
    (timing_segments : List TimingSeg) : List NarrationSeg :=
  match outcome with
  | .raised => [⟨0, 30, fallbackNarrationText, 8⟩]
  | .unparseable => [⟨0, 10 * timing_segments.length, fallbackNarrationText, 8⟩]
  | .parsed segs => cleanSegments 0 segs

/-!
Render retry supervision: `generate_video_background`
(src/app.py lines 300-317 and 429-437).

The render step and the LLM fix step are abstracted into observed outcomes;
the supervision function records how many render and fix attempts are made
and what the stage resolves to.
-/

/-- Outcome of one `execute_manim_script` invocation. -/
inductive RenderResult where
  | ok (videoPath : String)
  | err (msg : String)
deriving DecidableEq, Repr

/-- How the render stage resolves: the stage succeeded with a video path, or
the job transitions to status failed carrying the causal error message
(the outer handler at src/app.py lines 429-437 sets `status="failed"`,
`error=str(e)`). -/
inductive RenderStageResult where
  | rendered (videoPath : String)
  | failed (error : String)
deriving DecidableEq, Repr

/-- Counters and result of the render stage. -/
structure RenderSupervision where
  renderAttempts : Nat
  fixAttempts : Nat
  result : RenderStageResult
deriving DecidableEq, Repr

/-- src/app.py lines 300-317: run the render; on failure ask the LLM for a
fixed script once and retry once; a second failure (or a failure of the fix
call itself) propagates to the outer handler, which marks the job failed. -/
def superviseRender (first : RenderResult) (fixOutcome : Except String String)
    (retry : String → RenderResult) : RenderSupervision :=
  match first with
  | .ok p => ⟨1, 0, .rendered p⟩
  | .err _ =>
      match fixOutcome with
      | .error e => ⟨1, 1, .failed e⟩
      | .ok fixedScript =>
          match retry fixedScript with
          | .ok p => ⟨2, 1, .rendered p⟩
          | .err e2 => ⟨2, 1, .failed e2⟩

/-!
Status store: `StatusTracker` (src/services/status_tracker.py).
Timestamps are abstracted to a logical clock passed in by the caller.
-/

/-- `VideoStatus` (src/services/status_tracker.py lines 10-22). -/
structure VideoStatus where
  video_id : String
  status : String
  step : Int
  step_message : String
  created_at : Nat
  updated_at : Nat
  error : Option String
  file_path : Option String
  duration : Option ℚ
  subtitle_path : Option String
deriving DecidableEq, Repr

/-- The in-memory map of the tracker. -/
def StatusStore : Type := String → Option VideoStatus

/-- `StatusTracker.create` (lines 33-43). -/
def trackerCreate (store : StatusStore) (now : Nat) (video_id : String)
    (initial_message : String) : StatusStore :=
  fun k =>
    if k = video_id then
      some { video_id := video_id, status := "pending", step := 0
             step_message := initial_message, created_at := now, updated_at := now
             error := none, file_path := none, duration := none, subtitle_path := none }
    else store k

/-- The field mutations of `StatusTracker.update` (lines 55-70): each
provided field overwrites, each absent field is kept, `updated_at` is
refreshed. -/
def appliedUpdate (entry : VideoStatus) (now : Nat) (status : Option String)
    (step : Option Int) (step_message : Option String) (error : Option String)
    (file_path : Option String) (duration : Option ℚ)
    (subtitle_path : Option String) : VideoStatus :=
  { video_id := entry.video_id
    status := match status with | some v => v | none => entry.status
    step := match step with | some v => v | none => entry.step
    step_message := match step_message with | some v => v | none => entry.step_message
    created_at := entry.created_at
    updated_at := now
    error := match error with | some v => some v | none => entry.error
    file_path := match file_path with | some v => some v | none => entry.file_path
    duration := match duration with | some v => some v | none => entry.duration
    subtitle_path := match subtitle_path with | some v => some v | none => entry.subtitle_path }

/-- `StatusTracker.update` (lines 45-71): returns `None` and leaves the map
unchanged when the id has no entry; otherwise mutates the entry in place and
returns it. -/
def trackerUpdate (store : StatusStore) (now : Nat) (video_id : String)
    (status : Option String) (step : Option Int) (step_message : Option String)
    (error : Option String) (file_path : Option String) (duration : Option ℚ)
    (subtitle_path : Option String) : StatusStore × Option VideoStatus :=
  match store video_id with
  | none => (store, none)
  | some entry =>
      let updated := appliedUpdate entry now status step step_message error
        file_path duration subtitle_path
      (fun k => if k = video_id then some updated else store k, some updated)

/-!
Concrete inputs used by counterexamples and witnesses.
-/

/-- A segment whose measured duration falls inside the 100 ms tolerance band
below its planned duration (planned 8 s, measured 7.95 s). -/
def toleranceBandSeg : SynthSeg :=
  { start_time := 0, end_time := some 8, text := "Enough narration text"
    measured := 159/20, padOk := true }

/-- A segment whose audio overruns its planned slot (planned 5 s, measured 7 s). -/
def overrunSeg : SynthSeg :=
  { start_time := 0, end_time := some 5, text := "Adequate text", measured := 7, padOk := true }

/-- A segment needing padding (planned 8 s, measured 5 s). -/
def paddedSeg : SynthSeg :=
  { start_time := 0, end_time := some 8, text := "Some narration text", measured := 5, padOk := true }

/-- A segment padded from 2.5 s of audio to its 3 s slot. -/
def demoSeg1 : SynthSeg :=
  { start_time := 0, end_time := some 3, text := "Hello world segment"
    measured := 5/2, padOk := true }

/-- A segment overrunning its 5 s slot with 6 s of audio. -/
def demoSeg2 : SynthSeg :=
  { start_time := 3, end_time := some 8, text := "Second segment text"
    measured := 6, padOk := true }

/-- Two well-formed narration segments: the first is padded from 2.5 s to
3 s, the second overruns its 5 s slot with 6 s of audio. -/
def demoSegs : List SynthSeg := [demoSeg1, demoSeg2]

/-- The metadata `create_synchronized_audio` produces for `demoSegs`. -/
def demoMd : List SegMeta :=
  [{ segment_index := 0, planned_start := 0, planned_end := 3, actual_start := 0
     actual_end := 3, audio_duration := 3, text := "Hello world segment" },
   { segment_index := 1, planned_start := 3, planned_end := 9, actual_start := 3
     actual_end := 9, audio_duration := 6, text := "Second segment text" }]

/-- A timing segment of 5 s paired with 7.111 s of audio. -/
def fractionalTiming : List TimingSeg := [{ start_time := 0, end_time := 5, description := "Intro" }]

/-- Audio metadata whose measured duration is 7.111 s. -/
def fractionalAudio : List SegMeta :=
  [{ segment_index := 0, planned_start := 0, planned_end := 7111/1000, actual_start := 0
     actual_end := 7111/1000, audio_duration := 7111/1000, text := "Narration" }]

/-- A status store with no entries. -/
def emptyStore : StatusStore := fun _ => none

/-- A store holding a single freshly created entry for job-1. -/
def demoStore : StatusStore := trackerCreate emptyStore 3 "job-1" "Initializing"

/-- The entry `demoStore` holds for job-1. -/
def demoEntry : VideoStatus :=
  { video_id := "job-1", status := "pending", step := 0, step_message := "Initializing"
    created_at := 3, updated_at := 3, error := none, file_path := none
    duration := none, subtitle_path := none }

/-- Total duration of a list of per-segment records. -/
def durSum (l : List ASeg) : ℚ := (l.map ASeg.duration).sum

/-!
Helper lemmas about the reconciler.
-/

theorem durSum_nil : durSum [] = 0 := rfl

theorem durSum_cons (a : ASeg) (l : List ASeg) : durSum (a :: l) = a.duration + durSum l := by
  simp [durSum]

theorem durSum_nonneg (l : List ASeg) (h : ∀ a ∈ l, 0 ≤ a.duration) : 0 ≤ durSum l := by
  induction l with
  | nil => simp [durSum]
  | cons a rest ih =>
    rw [durSum_cons]
    have ha := h a (List.mem_cons_self a rest)
    have hr := ih fun b hb => h b (List.mem_cons_of_mem _ hb)
    linarith

theorem durSum_take_mono (l : List ASeg) (h : ∀ a ∈ l, 0 ≤ a.duration) :
    ∀ i j : Nat, i ≤ j → durSum (l.take i) ≤ durSum (l.take j) := by
  induction l with
  | nil => intro i j _; simp
  | cons a rest ih =>
    intro i j hij
    cases i with
    | zero =>
      simp only [List.take_zero, durSum_nil]
      exact durSum_nonneg _ fun b hb => h b (List.take_subset _ _ hb)
    | succ n =>
      cases j with
      | zero => omega
      | succ m =>
        simp only [List.take_succ_cons, durSum_cons]
        have := ih (fun b hb => h b (List.mem_cons_of_mem _ hb)) n m (by omega)
        linarith

theorem durSum_take_succ_of_getElem? (l : List ASeg) :
    ∀ (i : Nat) (a : ASeg), l[i]? = some a →
      durSum (l.take (i + 1)) = durSum (l.take i) + a.duration := by
  induction l with
  | nil => intro i a h; simp at h
  | cons b rest ih =>
    intro i a h
    cases i with
    | zero =>
      simp only [List.getElem?_cons_zero, Option.some.injEq] at h
      subst h
      simp [durSum_cons, durSum_nil]
    | succ n =>
      simp only [List.getElem?_cons_succ] at h
      simp only [List.take_succ_cons, durSum_cons, ih n a h]
      ring

theorem cumulativePass_getElem? (l : List ASeg) : ∀ (t : ℚ) (i : Nat),
    (cumulativePass t l)[i]? = l[i]?.map fun a =>
      { a with start_time := t + durSum (l.take i)
               end_time := t + durSum (l.take i) + a.duration } := by
  induction l with
  | nil => intro t i; simp [cumulativePass]
  | cons a rest ih =>
    intro t i
    cases i with
    | zero =>
      simp [cumulativePass, durSum_nil]
    | succ n =>
      simp only [cumulativePass, List.getElem?_cons_succ, List.take_succ_cons, durSum_cons, ih]
      cases h : rest[n]? <;> simp [h, add_assoc]

theorem metadataOf_getElem? (l : List ASeg) : ∀ (i n : Nat),
    (metadataOf i l)[n]? = l[n]?.map fun a =>
      { segment_index := i + n, planned_start := a.planned_start, planned_end := a.planned_end
        actual_start := a.start_time, actual_end := a.end_time, audio_duration := a.duration
        text := a.text } := by
  induction l with
  | nil => intro i n; simp [metadataOf]
  | cons a rest ih =>
    intro i n
    cases n with
    | zero => simp [metadataOf]
    | succ m =>
      simp only [metadataOf, List.getElem?_cons_succ, ih]
      have harith : i + 1 + m = i + (m + 1) := by omega
      rw [harith]

theorem metadataOf_length (i : Nat) (l : List ASeg) : (metadataOf i l).length = l.length := by
  induction l generalizing i with
  | nil => rfl
  | cons a rest ih => simp [metadataOf, ih]

theorem cumulativePass_length (t : ℚ) (l : List ASeg) :
    (cumulativePass t l).length = l.length := by
  induction l generalizing t with
  | nil => rfl
  | cons a rest ih => simp [cumulativePass, ih]

theorem metadataOf_map_text (i : Nat) (l : List ASeg) :
    (metadataOf i l).map SegMeta.text = l.map ASeg.text := by
  induction l generalizing i with
  | nil => rfl
  | cons a rest ih => simp [metadataOf, ih]

theorem cumulativePass_map_text (t : ℚ) (l : List ASeg) :
    (cumulativePass t l).map ASeg.text = l.map ASeg.text := by
  induction l generalizing t with
  | nil => rfl
  | cons a rest ih => simp [cumulativePass, ih]

theorem initialDuration_pos (s : SynthSeg) : 0 < initialDuration s := by
  show 0 < (if s.measured ≤ 0 then max (s.end_time.getD 0 - s.start_time) 1 else s.measured)
  split
  · exact lt_of_lt_of_le one_pos (le_max_right _ _)
  · next h => exact not_le.mp h

theorem passADuration_pos (s : SynthSeg) : 0 < passADuration s := by
  have h0 := initialDuration_pos s
  show 0 < (if initialDuration s < plannedDuration s - 1/10 then
      (if s.padOk = true then plannedDuration s else initialDuration s)
    else initialDuration s)
  split
  · next h =>
    split
    · linarith
    · exact h0
  · exact h0

/-- The branch structure of `create_synchronized_audio` as an equation. -/
theorem create_synchronized_audio_eq (segs : List SynthSeg) :
    create_synchronized_audio segs =
      if (validSegments segs).isEmpty then
        Except.error "No valid narration segments found - all segments are empty"
      else
        Except.ok (metadataOf 0 (cumulativePass 0 ((validSegments segs).map passA))) := rfl

/-- Pass A on `demoSeg1`: padded from 2.5 s to its 3 s slot. -/
theorem passA_demoSeg1 :
    passA demoSeg1 =
      { start_time := 0, end_time := 3, duration := 3, text := "Hello world segment"
        planned_start := 0, planned_end := 3 } := by
  have hd : initialDuration demoSeg1 = 5/2 := by norm_num [initialDuration, demoSeg1]
  have hpd : plannedDuration demoSeg1 = 3 := by
    norm_num [plannedDuration, plannedEnd, demoSeg1]
  have hdur : passADuration demoSeg1 = 3 := by
    show (if initialDuration demoSeg1 < plannedDuration demoSeg1 - 1/10 then
        (if demoSeg1.padOk = true then plannedDuration demoSeg1 else initialDuration demoSeg1)
      else initialDuration demoSeg1) = 3
    rw [hd, hpd, if_pos (by norm_num)]
    norm_num [demoSeg1]
  have hae : adjustedEnd demoSeg1 = 3 := by
    show max (plannedEnd demoSeg1) (demoSeg1.start_time + passADuration demoSeg1) = 3
    rw [hdur]
    norm_num [plannedEnd, demoSeg1]
  simp only [passA]
  rw [hdur, hae]
  simp only [demoSeg1]
  norm_num
  decide

/-- Pass A on `demoSeg2`: the 6 s of audio overrun the 5 s slot and are
kept, the recorded end moving to 9 s. -/
theorem passA_demoSeg2 :
    passA demoSeg2 =
      { start_time := 3, end_time := 9, duration := 6, text := "Second segment text"
        planned_start := 3, planned_end := 9 } := by
  have hd : initialDuration demoSeg2 = 6 := by norm_num [initialDuration, demoSeg2]
  have hpd : plannedDuration demoSeg2 = 5 := by
    norm_num [plannedDuration, plannedEnd, demoSeg2]
  have hdur : passADuration demoSeg2 = 6 := by
    show (if initialDuration demoSeg2 < plannedDuration demoSeg2 - 1/10 then
        (if demoSeg2.padOk = true then plannedDuration demoSeg2 else initialDuration demoSeg2)
      else initialDuration demoSeg2) = 6
    rw [hd, hpd, if_neg (by norm_num)]
  have hae : adjustedEnd demoSeg2 = 9 := by
    show max (plannedEnd demoSeg2) (demoSeg2.start_time + passADuration demoSeg2) = 9
    rw [hdur]
    norm_num [plannedEnd, demoSeg2]
  simp only [passA]
  rw [hdur, hae]
  simp only [demoSeg2]
  norm_num
  decide

/-- `create_synchronized_audio` on the two demo segments evaluates to the
expected metadata. -/
theorem create_demoSegs_eval : create_synchronized_audio demoSegs = Except.ok demoMd := by
  have hvalid : validSegments demoSegs = [demoSeg1, demoSeg2] := rfl
  rw [create_synchronized_audio_eq, hvalid]
  norm_num [cumulativePass, metadataOf, passA_demoSeg1, passA_demoSeg2, demoMd]

/-!
Claim theorems.
-/

/-- C6: the speech-synthesis provider is never invoked with input text of
length less than 3: both the per-segment synchronized path and the
single-clip TTS path replace empty or shorter-than-3-character text with a
non-empty fallback phrase before synthesis. -/
theorem synthesis_input_min_length (text : String) :
    3 ≤ (syncSynthesisInput text).length ∧ 3 ≤ (generateTtsInput text).length := by
  constructor
  · show 3 ≤ (if (pyStrip text).length < 3 then "Pause." else pyStrip text).length
    split
    · decide
    · omega
  · show 3 ≤ (pyStrip (if text = "" ∨ (pyStrip text).length < 3
        then "Educational animation content." else text)).length
    split
    · decide
    · next h =>
      push_neg at h
      exact h.2

/-- C2 as stated fails: for a measured duration inside the 100 ms tolerance
band (planned 8 s, measured 7.95 s) Pass A keeps the measured 7.95 s, not
`max(planned_duration, actual_duration) = 8 s`. -/
theorem passA_duration_not_max_in_tolerance_band :
    passADuration toleranceBandSeg = 159/20 ∧
    max (plannedDuration toleranceBandSeg) (initialDuration toleranceBandSeg) = 8 ∧
    passADuration toleranceBandSeg ≠
      max (plannedDuration toleranceBandSeg) (initialDuration toleranceBandSeg) := by
  have hd : initialDuration toleranceBandSeg = 159/20 := by
    norm_num [initialDuration, toleranceBandSeg]
  have hp : plannedDuration toleranceBandSeg = 8 := by
    norm_num [plannedDuration, plannedEnd, toleranceBandSeg]
  have hpass : passADuration toleranceBandSeg = 159/20 := by
    simp only [passADuration, hd, hp]
    norm_num
  refine ⟨hpass, ?_, ?_⟩
  · rw [hd, hp]; norm_num
  · rw [hpass, hd, hp]; norm_num

/-- C2 amended: with a successful padding run, a segment more than 0.1 s
shorter than its slot is padded with a silence tail of exactly
`planned_duration - actual_duration`, making its duration the planned
duration; otherwise the measured duration is kept unchanged, so the duration
equals `max(planned_duration, actual_duration)` only outside the tolerance
band. -/
theorem passA_padding_semantics (s : SynthSeg) (hpad : s.padOk = true) :
    (initialDuration s < plannedDuration s - 1/10 →
      passADuration s = plannedDuration s ∧
      silenceTail s = some (plannedDuration s - initialDuration s)) ∧
    (plannedDuration s - 1/10 ≤ initialDuration s →
      passADuration s = initialDuration s ∧ silenceTail s = none) ∧
    ((plannedDuration s ≤ initialDuration s ∨ initialDuration s < plannedDuration s - 1/10) →
      passADuration s = max (plannedDuration s) (initialDuration s)) := by
  have hps : passADuration s =
      if initialDuration s < plannedDuration s - 1/10 then
        (if s.padOk = true then plannedDuration s else initialDuration s)
      else initialDuration s := rfl
  have hst : silenceTail s =
      if initialDuration s < plannedDuration s - 1/10 then
        some (plannedDuration s - initialDuration s)
      else none := rfl
  by_cases h : initialDuration s < plannedDuration s - 1/10
  · refine ⟨fun _ => ⟨?_, ?_⟩, fun hc => absurd h (not_lt.mpr hc), fun _ => ?_⟩
    · rw [hps, if_pos h, if_pos hpad]
    · rw [hst, if_pos h]
    · rw [hps, if_pos h, if_pos hpad]
      exact (max_eq_left (by linarith)).symm
  · refine ⟨fun hc => absurd hc h, fun _ => ⟨?_, ?_⟩, fun hor => ?_⟩
    · rw [hps, if_neg h]
    · rw [hst, if_neg h]
    · rcases hor with hle | hlt
      · rw [hps, if_neg h]
        exact (max_eq_right hle).symm
      · exact absurd hlt h

/-- C2 witness: planned 8 s with measured 5 s yields duration 8 s and a 3 s
silence tail. -/
theorem passA_padding_semantics_witness :
    passADuration paddedSeg = 8 ∧ silenceTail paddedSeg = some 3 := by
  have hcond : initialDuration paddedSeg < plannedDuration paddedSeg - 1/10 := by
    norm_num [initialDuration, plannedDuration, plannedEnd, paddedSeg]
  have h := (passA_padding_semantics paddedSeg rfl).1 hcond
  refine ⟨?_, ?_⟩
  · rw [h.1]; norm_num [plannedDuration, plannedEnd, paddedSeg]
  · rw [h.2]
    norm_num [plannedDuration, plannedEnd, initialDuration, paddedSeg]

/-- C5 as stated fails: on an exception the composer returns a fixed 0-30 s
span regardless of the input timing segments, which here span 0-100 s (and
number one, so even the parse-failure estimate would be 10 s, also short of
100 s). -/
theorem narration_failure_span_counterexample :
    generate_timed_narration .raised
        [{ start_time := 0, end_time := 100, description := "Intro" }] =
      [{ start_time := 0, end_time := 30, text := fallbackNarrationText, words := 8 }] ∧
    generate_timed_narration .unparseable
        [{ start_time := 0, end_time := 100, description := "Intro" }] =
      [{ start_time := 0, end_time := 10, text := fallbackNarrationText, words := 8 }] ∧
    (30:ℚ) < 100 ∧ (10:ℚ) < 100 := by
  refine ⟨rfl, by norm_num [generate_timed_narration], by norm_num, by norm_num⟩

/-- C5 amended: on total failure the composer returns exactly one segment
with non-empty generic text starting at 0, never raising; its end is the
fixed constant 30 s when the LLM call raises, and 10 s times the number of
input timing segments when the response is unparseable — not the estimated
duration of the input timing segments. -/
theorem narration_total_failure_single_segment (timing : List TimingSeg) :
    generate_timed_narration .raised timing =
      [{ start_time := 0, end_time := 30, text := fallbackNarrationText, words := 8 }] ∧
    generate_timed_narration .unparseable timing =
      [{ start_time := 0, end_time := 10 * timing.length, text := fallbackNarrationText
         words := 8 }] ∧
    fallbackNarrationText ≠ "" :=
  ⟨rfl, rfl, by decide⟩

/-- C7: a render failure triggers exactly one LLM repair and exactly one
render retry; a second render failure resolves the job to status failed with
the causal error message, and no further attempt is made (never more than
two render attempts or one fix attempt). -/
theorem render_retry_exactly_once (first : RenderResult)
    (fixOutcome : Except String String) (retry : String → RenderResult) :
    (superviseRender first fixOutcome retry).renderAttempts ≤ 2 ∧
    (superviseRender first fixOutcome retry).fixAttempts ≤ 1 ∧
    (∀ p, first = .ok p →
      superviseRender first fixOutcome retry = ⟨1, 0, .rendered p⟩) ∧
    (∀ e1 script e2, first = .err e1 → fixOutcome = .ok script → retry script = .err e2 →
      superviseRender first fixOutcome retry = ⟨2, 1, .failed e2⟩) ∧
    (∀ e1 script p, first = .err e1 → fixOutcome = .ok script → retry script = .ok p →
      superviseRender first fixOutcome retry = ⟨2, 1, .rendered p⟩) := by
  cases first with
  | ok p => simp [superviseRender]
  | err m =>
    cases fixOutcome with
    | error e => simp [superviseRender]
    | ok script =>
      refine ⟨?_, ?_, ?_, ?_, ?_⟩
      · cases hr : retry script <;> simp [superviseRender, hr]
      · cases hr : retry script <;> simp [superviseRender, hr]
      · intro p hp
        exact absurd hp (by simp)
      · intro e1 s e2 h1 h2 h3
        cases h2
        simp [superviseRender, h3]
      · intro e1 s p h1 h2 h3
        cases h2
        simp [superviseRender, h3]

/-- C7 witness: a concrete failing render, fixed script and failing retry
resolve to two render attempts, one fix, and status failed with the second
error. -/
theorem render_retry_exactly_once_witness :
    superviseRender (.err "first render error") (.ok "fixed script")
        (fun _ => .err "second render error") =
      ⟨2, 1, .failed "second render error"⟩ :=
  (render_retry_exactly_once (.err "first render error") (.ok "fixed script")
      (fun _ => .err "second render error")).2.2.2.1
    "first render error" "fixed script" "second render error" rfl rfl rfl

/-- C9 as stated fails: updating an id with no existing entry is a no-op
returning none — no entry results for that id. -/
theorem tracker_update_missing_id_counterexample :
    (trackerUpdate emptyStore 5 "job-1" (some "processing")
        none none none none none none).1 "job-1" = none ∧
    (trackerUpdate emptyStore 5 "job-1" (some "processing")
        none none none none none none).2 = none :=
  ⟨rfl, rfl⟩

/-- C9 amended: the update operation has set-if-provided semantics only for
ids that already have an entry — every absent field keeps its previous
value, every provided field takes the new value, `updated_at` is refreshed,
`created_at` and `video_id` are preserved and other ids are untouched —
while an update of an id with no existing entry leaves the store unchanged
and returns none (no upsert). -/
theorem tracker_update_set_if_provided (store : StatusStore) (now : Nat) (id : String)
    (st : Option String) (stp : Option Int) (msg : Option String) (err : Option String)
    (fp : Option String) (dur : Option ℚ) (sub : Option String) :
    (store id = none →
      trackerUpdate store now id st stp msg err fp dur sub = (store, none)) ∧
    (∀ e, store id = some e →
      (trackerUpdate store now id st stp msg err fp dur sub).2 =
        some (appliedUpdate e now st stp msg err fp dur sub) ∧
      (trackerUpdate store now id st stp msg err fp dur sub).1 id =
        some (appliedUpdate e now st stp msg err fp dur sub) ∧
      (∀ k, k ≠ id → (trackerUpdate store now id st stp msg err fp dur sub).1 k = store k) ∧
      (appliedUpdate e now st stp msg err fp dur sub).status = st.getD e.status ∧
      (appliedUpdate e now st stp msg err fp dur sub).step = stp.getD e.step ∧
      (appliedUpdate e now st stp msg err fp dur sub).step_message = msg.getD e.step_message ∧
      (appliedUpdate e now st stp msg err fp dur sub).error = (err.map some).getD e.error ∧
      (appliedUpdate e now st stp msg err fp dur sub).file_path = (fp.map some).getD e.file_path ∧
      (appliedUpdate e now st stp msg err fp dur sub).duration = (dur.map some).getD e.duration ∧
      (appliedUpdate e now st stp msg err fp dur sub).subtitle_path =
        (sub.map some).getD e.subtitle_path ∧
      (appliedUpdate e now st stp msg err fp dur sub).updated_at = now ∧
      (appliedUpdate e now st stp msg err fp dur sub).created_at = e.created_at ∧
      (appliedUpdate e now st stp msg err fp dur sub).video_id = e.video_id) := by
  constructor
  · intro hnone
    simp [trackerUpdate, hnone]
  · intro e he
    refine ⟨by simp [trackerUpdate, he], by simp [trackerUpdate, he], ?_, ?_, ?_, ?_, ?_,
      ?_, ?_, ?_, rfl, rfl, rfl⟩
    · intro k hk
      simp [trackerUpdate, he, hk]
    · cases st <;> rfl
    · cases stp <;> rfl
    · cases msg <;> rfl
    · cases err <;> rfl
    · cases fp <;> rfl
    · cases dur <;> rfl
    · cases sub <;> rfl

/-- C9 witness: updating an existing entry with a new status and duration
overwrites those fields, keeps the untouched message, and refreshes
`updated_at`. -/
theorem tracker_update_set_if_provided_witness :
    (trackerUpdate demoStore 7 "job-1" (some "processing")
        none none none none (some 12) none).2 =
      some (appliedUpdate demoEntry 7 (some "processing") none none none none (some 12) none) ∧
    (appliedUpdate demoEntry 7 (some "processing") none none none none (some 12) none).status =
      "processing" ∧
    (appliedUpdate demoEntry 7 (some "processing") none none none none
        (some 12) none).step_message = "Initializing" ∧
    (appliedUpdate demoEntry 7 (some "processing") none none none none (some 12) none).duration =
      some 12 ∧
    (appliedUpdate demoEntry 7 (some "processing") none none none none (some 12) none).updated_at =
      7 := by
  have h := (tracker_update_set_if_provided demoStore 7 "job-1" (some "processing")
    none none none none (some 12) none).2 demoEntry (by rfl)
  exact ⟨h.1, rfl, rfl, rfl, rfl⟩

/-- Membership in the adjustment loop: a zipped pair whose audio outruns its
video duration by more than the threshold contributes an adjustment at its
enumeration index. -/
theorem mem_waitAdjustmentsAux (threshold : ℚ) :
    ∀ (l : List (TimingSeg × SegMeta)) (j i : Nat) (t : TimingSeg) (a : SegMeta),
      l[i]? = some (t, a) →
      threshold < a.audio_duration - (t.end_time - t.start_time) →
      ({ segment_index := j + i
         wait_duration := pyRound2 (a.audio_duration - (t.end_time - t.start_time))
         video_duration := pyRound2 (t.end_time - t.start_time)
         audio_duration := pyRound2 a.audio_duration
         segment_description := t.description } : Adjustment) ∈
        waitAdjustmentsAux threshold j l := by
  intro l
  induction l with
  | nil =>
    intro j i t a h hd
    simp at h
  | cons p rest ih =>
    obtain ⟨pt, pa⟩ := p
    intro j i t a h hd
    cases i with
    | zero =>
      simp only [List.getElem?_cons_zero, Option.some.injEq, Prod.mk.injEq] at h
      obtain ⟨rfl, rfl⟩ := h
      simp only [waitAdjustmentsAux]
      rw [if_pos hd]
      exact List.mem_cons_self _ _
    | succ n =>
      have h' : rest[n]? = some (t, a) := by simpa using h
      have hmem := ih (j + 1) n t a h' hd
      have hidx : j + (n + 1) = j + 1 + n := by omega
      rw [hidx]
      simp only [waitAdjustmentsAux]
      by_cases hc : threshold < pa.audio_duration - (pt.end_time - pt.start_time)
      · rw [if_pos hc]
        exact List.mem_cons_of_mem _ hmem
      · rw [if_neg hc]
        exact hmem

/-- C3 as stated fails: with 7.111 s of audio against a 5 s slot, the
recorded `wait_duration` is the rounded 2.11 s, not the exact difference
2.111 s. -/
theorem wait_duration_rounded_counterexample :
    calculate_wait_adjustments fractionalTiming fractionalAudio =
      [{ segment_index := 0, wait_duration := 211/100, video_duration := 5
         audio_duration := 711/100, segment_description := "Intro" }] ∧
    (211/100 : ℚ) ≠ 7111/1000 - 5 := by
  constructor
  · show waitAdjustmentsAux (1/10) 0 (fractionalTiming.zip fractionalAudio) = _
    rw [show fractionalTiming.zip fractionalAudio =
      [({ start_time := 0, end_time := 5, description := "Intro" },
        { segment_index := 0, planned_start := 0, planned_end := 7111/1000, actual_start := 0
          actual_end := 7111/1000, audio_duration := 7111/1000, text := "Narration" })] from rfl]
    simp only [waitAdjustmentsAux]
    rw [if_pos (by norm_num)]
    norm_num [pyRound2, pyRoundInt]
  · norm_num

/-- C3 amended: audio longer than its planned slot is never trimmed — the
Pass A duration equals the measured duration and no silence tail is
generated — and whenever a zipped (timing, audio) pair shows the audio
exceeding the video duration by more than the 0.1 s threshold, an adjustment
is recorded at that index whose `wait_duration` is the difference
`audio_duration - video_duration` rounded to two decimals. -/
theorem overrun_never_trimmed_adjustment_recorded :
    (∀ s : SynthSeg, plannedDuration s < initialDuration s →
      passADuration s = initialDuration s ∧ silenceTail s = none) ∧
    (∀ (timing : List TimingSeg) (audio : List SegMeta) (i : Nat) (t : TimingSeg) (a : SegMeta),
      (timing.zip audio)[i]? = some (t, a) →
      1/10 < a.audio_duration - (t.end_time - t.start_time) →
      ({ segment_index := i
         wait_duration := pyRound2 (a.audio_duration - (t.end_time - t.start_time))
         video_duration := pyRound2 (t.end_time - t.start_time)
         audio_duration := pyRound2 a.audio_duration
         segment_description := t.description } : Adjustment) ∈
        calculate_wait_adjustments timing audio) := by
  constructor
  · intro s hover
    have hno : ¬(initialDuration s < plannedDuration s - 1/10) := by
      intro hc
      linarith
    constructor
    · show (if initialDuration s < plannedDuration s - 1/10 then
          (if s.padOk = true then plannedDuration s else initialDuration s)
        else initialDuration s) = initialDuration s
      rw [if_neg hno]
    · show (if initialDuration s < plannedDuration s - 1/10 then
          some (plannedDuration s - initialDuration s) else none) = none
      rw [if_neg hno]
  · intro timing audio i t a h hd
    have hmem := mem_waitAdjustmentsAux (1/10) (timing.zip audio) 0 i t a h hd
    simpa [calculate_wait_adjustments] using hmem

/-- C3 witness: planned 5 s with measured 7 s keeps the 7 s of audio and
records an adjustment of 2 s wait. -/
theorem overrun_never_trimmed_adjustment_recorded_witness :
    passADuration overrunSeg = 7 ∧
    ({ segment_index := 0, wait_duration := 2, video_duration := 5, audio_duration := 7
       segment_description := "Intro" } : Adjustment) ∈
      calculate_wait_adjustments [{ start_time := 0, end_time := 5, description := "Intro" }]
        [{ segment_index := 0, planned_start := 0, planned_end := 7, actual_start := 0
           actual_end := 7, audio_duration := 7, text := "Adequate text" }] := by
  constructor
  · have hover : plannedDuration overrunSeg < initialDuration overrunSeg := by
      norm_num [plannedDuration, plannedEnd, initialDuration, overrunSeg]
    have h := (overrun_never_trimmed_adjustment_recorded).1 overrunSeg hover
    rw [h.1]
    norm_num [initialDuration, overrunSeg]
  · have h := (overrun_never_trimmed_adjustment_recorded).2
      [{ start_time := 0, end_time := 5, description := "Intro" }]
      [{ segment_index := 0, planned_start := 0, planned_end := 7, actual_start := 0
         actual_end := 7, audio_duration := 7, text := "Adequate text" }]
      0 { start_time := 0, end_time := 5, description := "Intro" }
      { segment_index := 0, planned_start := 0, planned_end := 7, actual_start := 0
        actual_end := 7, audio_duration := 7, text := "Adequate text" }
      rfl (by norm_num)
    norm_num [pyRound2, pyRoundInt] at h
    exact h

/-- C4 is right about the intent but the code diverges from its own
comments: for a segment whose audio (7 s) overruns its planned slot (0-5 s),
the value stored under `planned_end` in both the per-segment record and the
returned metadata is `adjusted_end = max(planned_end, actual_end) = 7`, not
the original planned end 5, although the comments at
src/services/audio_processor.py lines 498-505 label it "Original video
timing". -/
theorem planned_end_mutated_on_overrun :
    create_synchronized_audio [overrunSeg] =
      Except.ok [{ segment_index := 0, planned_start := 0, planned_end := 7, actual_start := 0
                   actual_end := 7, audio_duration := 7, text := "Adequate text" }] ∧
    plannedEnd overrunSeg = 5 ∧ ((7:ℚ) ≠ 5) := by
  refine ⟨?_, by norm_num [plannedEnd, overrunSeg], by norm_num⟩
  have hd : initialDuration overrunSeg = 7 := by norm_num [initialDuration, overrunSeg]
  have hpd : plannedDuration overrunSeg = 5 := by
    norm_num [plannedDuration, plannedEnd, overrunSeg]
  have hdur : passADuration overrunSeg = 7 := by
    show (if initialDuration overrunSeg < plannedDuration overrunSeg - 1/10 then
        (if overrunSeg.padOk = true then plannedDuration overrunSeg
         else initialDuration overrunSeg)
      else initialDuration overrunSeg) = 7
    rw [hd, hpd, if_neg (by norm_num)]
  have hae : adjustedEnd overrunSeg = 7 := by
    show max (plannedEnd overrunSeg) (overrunSeg.start_time + passADuration overrunSeg) = 7
    rw [hdur]
    norm_num [plannedEnd, overrunSeg]
  have hpA : passA overrunSeg =
      { start_time := 0, end_time := 7, duration := 7, text := "Adequate text"
        planned_start := 0, planned_end := 7 } := by
    simp only [passA]
    rw [hdur, hae]
    simp only [overrunSeg]
    norm_num
    decide
  have hvalid : validSegments [overrunSeg] = [overrunSeg] := rfl
  show (if (validSegments [overrunSeg]).isEmpty then
      Except.error "No valid narration segments found - all segments are empty"
    else Except.ok (metadataOf 0 (cumulativePass 0 ((validSegments [overrunSeg]).map passA)))) = _
  rw [hvalid]
  norm_num [cumulativePass, metadataOf, hpA]

/-- C1: for every input whose reconciliation succeeds, the cumulative
re-sequencing pass yields a timeline whose first segment starts at 0, where
every segment's actual end is its actual start plus its (positive) duration,
every next segment starts exactly at the previous segment's end, and no two
segments' `[actual_start, actual_end)` intervals overlap — for arbitrary
planned timings and measured durations. -/
theorem reconciled_timeline_sequential (segs : List SynthSeg) (md : List SegMeta)
    (h : create_synchronized_audio segs = Except.ok md) :
    (∀ m, md[0]? = some m → m.actual_start = 0) ∧
    (∀ (i : Nat) (m : SegMeta), md[i]? = some m →
      m.actual_end = m.actual_start + m.audio_duration ∧ 0 < m.audio_duration) ∧
    (∀ (i : Nat) (m m2 : SegMeta), md[i]? = some m → md[i + 1]? = some m2 →
      m2.actual_start = m.actual_end) ∧
    (∀ (i j : Nat) (mi mj : SegMeta), i < j → md[i]? = some mi → md[j]? = some mj →
      mi.actual_end ≤ mj.actual_start ∧
      ∀ x : ℚ, ¬(mi.actual_start ≤ x ∧ x < mi.actual_end ∧
        mj.actual_start ≤ x ∧ x < mj.actual_end)) := by
  have hmdEq : md = metadataOf 0 (cumulativePass 0 ((validSegments segs).map passA)) := by
    rw [create_synchronized_audio_eq] at h
    by_cases hc : (validSegments segs).isEmpty
    · rw [if_pos hc] at h
      exact absurd h (by simp)
    · rw [if_neg hc] at h
      exact (Except.ok.inj h).symm
  have hLpos : ∀ a ∈ (validSegments segs).map passA, 0 < a.duration := by
    intro a ha
    obtain ⟨s, _, rfl⟩ := List.mem_map.mp ha
    exact passADuration_pos s
  have hLnn : ∀ a ∈ (validSegments segs).map passA, 0 ≤ a.duration :=
    fun a ha => le_of_lt (hLpos a ha)
  have hget : ∀ n : Nat, md[n]? = ((validSegments segs).map passA)[n]?.map fun a =>
      { segment_index := n, planned_start := a.planned_start, planned_end := a.planned_end
        actual_start := durSum (((validSegments segs).map passA).take n)
        actual_end := durSum (((validSegments segs).map passA).take n) + a.duration
        audio_duration := a.duration, text := a.text } := by
    intro n
    rw [hmdEq, metadataOf_getElem?, cumulativePass_getElem?]
    cases hx : ((validSegments segs).map passA)[n]? <;> simp [hx]
  refine ⟨?_, ?_, ?_, ?_⟩
  · intro m hm
    rw [hget 0] at hm
    cases hx : ((validSegments segs).map passA)[0]? with
    | none => rw [hx] at hm; simp at hm
    | some a =>
      rw [hx] at hm
      simp only [Option.map_some', Option.some.injEq] at hm
      rw [← hm]
      simp [durSum_nil]
  · intro i m hm
    rw [hget i] at hm
    cases hx : ((validSegments segs).map passA)[i]? with
    | none => rw [hx] at hm; simp at hm
    | some a =>
      rw [hx] at hm
      simp only [Option.map_some', Option.some.injEq] at hm
      subst hm
      refine ⟨rfl, ?_⟩
      obtain ⟨hlt, heq⟩ := List.getElem?_eq_some.mp hx
      exact heq ▸ hLpos _ (List.getElem_mem hlt)
  · intro i m m2 hm hm2
    rw [hget i] at hm
    rw [hget (i + 1)] at hm2
    cases hx : ((validSegments segs).map passA)[i]? with
    | none => rw [hx] at hm; simp at hm
    | some a =>
      cases hx2 : ((validSegments segs).map passA)[i + 1]? with
      | none => rw [hx2] at hm2; simp at hm2
      | some b =>
        rw [hx] at hm
        rw [hx2] at hm2
        simp only [Option.map_some', Option.some.injEq] at hm hm2
        subst hm
        subst hm2
        show durSum (((validSegments segs).map passA).take (i + 1)) = _
        rw [durSum_take_succ_of_getElem? _ i a hx]
  · intro i j mi mj hij hmi hmj
    rw [hget i] at hmi
    rw [hget j] at hmj
    cases hx : ((validSegments segs).map passA)[i]? with
    | none => rw [hx] at hmi; simp at hmi
    | some a =>
      cases hx2 : ((validSegments segs).map passA)[j]? with
      | none => rw [hx2] at hmj; simp at hmj
      | some b =>
        rw [hx] at hmi
        rw [hx2] at hmj
        simp only [Option.map_some', Option.some.injEq] at hmi hmj
        subst hmi
        subst hmj
        have hle : durSum (((validSegments segs).map passA).take (i + 1)) ≤
            durSum (((validSegments segs).map passA).take j) :=
          durSum_take_mono _ hLnn (i + 1) j (by omega)
        rw [durSum_take_succ_of_getElem? _ i a hx] at hle
        refine ⟨hle, ?_⟩
        intro x hx3
        obtain ⟨_, h2, h3, _⟩ := hx3
        simp only at h2 h3
        linarith
/-- C1 witness: on the two demo segments the reconciler succeeds, the first
segment starts at 0 and the second starts exactly where the first ends. -/
theorem reconciled_timeline_sequential_witness :
    create_synchronized_audio demoSegs = Except.ok demoMd ∧
    SegMeta.actual_start
      { segment_index := 0, planned_start := 0, planned_end := 3, actual_start := 0
        actual_end := 3, audio_duration := 3, text := "Hello world segment" } = 0 ∧
    SegMeta.actual_start
      { segment_index := 1, planned_start := 3, planned_end := 9, actual_start := 3
        actual_end := 9, audio_duration := 6, text := "Second segment text" } =
    SegMeta.actual_end
      { segment_index := 0, planned_start := 0, planned_end := 3, actual_start := 0
        actual_end := 3, audio_duration := 3, text := "Hello world segment" } := by
  have h := reconciled_timeline_sequential demoSegs demoMd create_demoSegs_eval
  exact ⟨create_demoSegs_eval, h.1 _ rfl, h.2.2.1 0 _ _ rfl rfl⟩

/-- C10: segments whose stripped text is empty are filtered out before any
synthesis; when no valid segment remains the function fails with an error
instead of producing audio; and every returned metadata entry originates
from a kept (non-empty) segment, so removed segments never appear. -/
theorem empty_segments_filtered_or_error (segs : List SynthSeg) :
    ((∀ s ∈ segs, pyStrip s.text = "") →
      create_synchronized_audio segs =
        Except.error "No valid narration segments found - all segments are empty") ∧
    (∀ md, create_synchronized_audio segs = Except.ok md →
      md.length = (validSegments segs).length ∧
      (∀ s ∈ validSegments segs, pyStrip s.text ≠ "") ∧
      (∀ m ∈ md, ∃ s, s ∈ segs ∧ pyStrip s.text ≠ "" ∧ m.text = syncSynthesisInput s.text)) := by
  constructor
  · intro hall
    have hnil : validSegments segs = [] := by
      simp only [validSegments, List.filter_eq_nil_iff]
      intro a ha
      simp [hall a ha]
    rw [create_synchronized_audio_eq, hnil]
    rfl
  · intro md hmd
    rw [create_synchronized_audio_eq] at hmd
    by_cases hc : (validSegments segs).isEmpty
    · rw [if_pos hc] at hmd
      exact absurd hmd (by simp)
    · rw [if_neg hc] at hmd
      have hmdEq : md = metadataOf 0 (cumulativePass 0 ((validSegments segs).map passA)) :=
        (Except.ok.inj hmd).symm
      refine ⟨?_, ?_, ?_⟩
      · rw [hmdEq, metadataOf_length, cumulativePass_length, List.length_map]
      · intro s hs
        have hmem := List.mem_filter.mp hs
        simpa using hmem.2
      · intro m hm
        have hmt : m.text ∈ md.map SegMeta.text := List.mem_map_of_mem _ hm
        rw [hmdEq, metadataOf_map_text, cumulativePass_map_text, List.map_map] at hmt
        obtain ⟨s, hsV, hst⟩ := List.mem_map.mp hmt
        have hsmem := List.mem_filter.mp hsV
        exact ⟨s, hsmem.1, by simpa using hsmem.2, hst.symm⟩

/-- C10 witness: an all-whitespace input fails with the error, and on the
demo segments the metadata is index-aligned with the kept segments. -/
theorem empty_segments_filtered_or_error_witness :
    create_synchronized_audio
        [{ start_time := 0, end_time := some 5, text := "   ", measured := 1, padOk := true }] =
      Except.error "No valid narration segments found - all segments are empty" ∧
    demoMd.length = (validSegments demoSegs).length := by
  constructor
  · refine (empty_segments_filtered_or_error _).1 ?_
    intro s hs
    simp only [List.mem_singleton] at hs
    subst hs
    decide
  · exact ((empty_segments_filtered_or_error demoSegs).2 demoMd create_demoSegs_eval).1

/-!
Helper lemmas for the time-code formatters.
-/

theorem intFloor_natCast_div (n k : Nat) (hk : 0 < k) :
    ⌊(n : ℚ) / (k : ℚ)⌋ = ((n / k : Nat) : ℤ) := by
  have hk0 : (0:ℚ) < (k:ℚ) := by exact_mod_cast hk
  rw [Int.floor_eq_iff]
  constructor
  · rw [le_div_iff hk0]
    exact_mod_cast Nat.div_mul_le_self n k
  · rw [div_lt_iff hk0]
    have h2 : n < (n / k + 1) * k := by
      calc n = k * (n / k) + n % k := (Nat.div_add_mod n k).symm
        _ < k * (n / k) + k := by have := Nat.mod_lt n hk; omega
        _ = (n / k + 1) * k := by ring
    exact_mod_cast h2

theorem pyMod_scaled (n K : Nat) (hK : 0 < K) :
    pyMod ((n:ℚ)/1000) (((K:Nat):ℚ)/1000) = ((n % K : Nat) : ℚ)/1000 := by
  have hKne : ((K:Nat):ℚ) ≠ 0 := ne_of_gt (by exact_mod_cast hK)
  have hdiv : ((n:ℚ)/1000) / (((K:Nat):ℚ)/1000) = (n:ℚ)/(K:ℚ) := by
    field_simp
  unfold pyMod
  rw [hdiv, intFloor_natCast_div n K hK, Int.cast_natCast]
  have hmod : ((K:Nat):ℚ) * ((n / K : Nat):ℚ) + ((n % K : Nat):ℚ) = (n:ℚ) := by
    exact_mod_cast Nat.div_add_mod n K
  linear_combination -hmod / 1000

set_option maxRecDepth 40000 in
theorem toString_nat_length_le_two : ∀ m : Nat, m < 100 → (toString m).length ≤ 2 := by decide

set_option maxRecDepth 400000 in
theorem toString_nat_length_le_three : ∀ m : Nat, m < 1000 → (toString m).length ≤ 3 := by
  decide

theorem padNum_length (w n : Nat) (h : (toString n).length ≤ w) : (padNum w n).length = w := by
  have hmk : ∀ l : List Char, (String.mk l).length = l.length := fun _ => rfl
  show (if (toString n).length < w then
      String.mk (List.replicate (w - (toString n).length) '0') ++ toString n
    else toString n).length = w
  split
  · next hlt =>
    rw [String.length_append, hmk, List.length_replicate]
    omega
  · next hge => omega

/-- The four numeric fields computed by the formatters on an exact
millisecond count. -/
theorem time_components (n : Nat) :
    (⌊((n:ℚ)/1000) / 3600⌋).toNat = n / 3600000 ∧
    (⌊pyMod ((n:ℚ)/1000) 3600 / 60⌋).toNat = n % 3600000 / 60000 ∧
    (⌊pyMod ((n:ℚ)/1000) 60⌋).toNat = n % 60000 / 1000 ∧
    (⌊pyMod ((n:ℚ)/1000) 1 * 1000⌋).toNat = n % 1000 := by
  have h2 : pyMod ((n:ℚ)/1000) 3600 = ((n % 3600000 : Nat):ℚ)/1000 := by
    have he : (3600:ℚ) = ((3600000:Nat):ℚ)/1000 := by norm_num
    rw [he, pyMod_scaled n 3600000 (by norm_num)]
  have h4 : pyMod ((n:ℚ)/1000) 60 = ((n % 60000 : Nat):ℚ)/1000 := by
    have he : (60:ℚ) = ((60000:Nat):ℚ)/1000 := by norm_num
    rw [he, pyMod_scaled n 60000 (by norm_num)]
  have h6 : pyMod ((n:ℚ)/1000) 1 = ((n % 1000 : Nat):ℚ)/1000 := by
    have he : (1:ℚ) = ((1000:Nat):ℚ)/1000 := by norm_num
    rw [he, pyMod_scaled n 1000 (by norm_num)]
  refine ⟨?_, ?_, ?_, ?_⟩
  · have he : ((n:ℚ)/1000)/3600 = (n:ℚ)/((3600000:Nat):ℚ) := by
      push_cast
      ring
    rw [he, intFloor_natCast_div n 3600000 (by norm_num)]
    exact Int.toNat_natCast _
  · have he : ((n % 3600000 : Nat):ℚ)/1000/60 = ((n % 3600000 : Nat):ℚ)/((60000:Nat):ℚ) := by
      push_cast
      ring
    rw [h2, he, intFloor_natCast_div _ 60000 (by norm_num)]
    exact Int.toNat_natCast _
  · have he : ((n % 60000 : Nat):ℚ)/1000 = ((n % 60000 : Nat):ℚ)/((1000:Nat):ℚ) := by
      norm_num
    rw [h4, he, intFloor_natCast_div _ 1000 (by norm_num)]
    exact Int.toNat_natCast _
  · have he : ((n % 1000 : Nat):ℚ)/1000*1000 = ((n % 1000 : Nat):ℚ) := by
      field_simp
    rw [h6, he, Int.floor_natCast]
    exact Int.toNat_natCast _

/-- C8: on an exact number of milliseconds below 100 hours, both formatters
render zero-padded two-digit hours, minutes and seconds and a three-digit
millisecond field computed exactly (the four fields recompose to the input
milliseconds), and the two formats differ only in the decimal separator. -/
theorem format_time_millisecond_exact (n : Nat) (hn : n < 360000000) :
    format_srt_time ((n : ℚ) / 1000) =
      padNum 2 (n / 3600000) ++ ":" ++ padNum 2 (n % 3600000 / 60000) ++ ":" ++
        padNum 2 (n % 60000 / 1000) ++ "," ++ padNum 3 (n % 1000) ∧
    format_vtt_time ((n : ℚ) / 1000) =
      padNum 2 (n / 3600000) ++ ":" ++ padNum 2 (n % 3600000 / 60000) ++ ":" ++
        padNum 2 (n % 60000 / 1000) ++ "." ++ padNum 3 (n % 1000) ∧
    3600000 * (n / 3600000) + 60000 * (n % 3600000 / 60000) + 1000 * (n % 60000 / 1000) +
      n % 1000 = n ∧
    (padNum 2 (n / 3600000)).length = 2 ∧
    (padNum 2 (n % 3600000 / 60000)).length = 2 ∧
    (padNum 2 (n % 60000 / 1000)).length = 2 ∧
    (padNum 3 (n % 1000)).length = 3 := by
  obtain ⟨h1, h3, h5, h7⟩ := time_components n
  refine ⟨?_, ?_, by omega, ?_, ?_, ?_, ?_⟩
  · show padNum 2 (⌊((n:ℚ)/1000) / 3600⌋).toNat ++ ":" ++
        padNum 2 (⌊pyMod ((n:ℚ)/1000) 3600 / 60⌋).toNat ++ ":" ++
        padNum 2 (⌊pyMod ((n:ℚ)/1000) 60⌋).toNat ++ "," ++
        padNum 3 (⌊pyMod ((n:ℚ)/1000) 1 * 1000⌋).toNat = _
    rw [h1, h3, h5, h7]
  · show padNum 2 (⌊((n:ℚ)/1000) / 3600⌋).toNat ++ ":" ++
        padNum 2 (⌊pyMod ((n:ℚ)/1000) 3600 / 60⌋).toNat ++ ":" ++
        padNum 2 (⌊pyMod ((n:ℚ)/1000) 60⌋).toNat ++ "." ++
        padNum 3 (⌊pyMod ((n:ℚ)/1000) 1 * 1000⌋).toNat = _
    rw [h1, h3, h5, h7]
  · exact padNum_length 2 _ (toString_nat_length_le_two _ (by omega))
  · exact padNum_length 2 _ (toString_nat_length_le_two _ (by omega))
  · exact padNum_length 2 _ (toString_nat_length_le_two _ (by omega))
  · exact padNum_length 3 _ (toString_nat_length_le_three _ (by omega))

/-- C8 witness: 65.5 s renders as 00:01:05,500 / 00:01:05.500 and 70.25 s as
00:01:10,250 / 00:01:10.250. -/
theorem format_time_millisecond_exact_witness :
    format_srt_time (131/2) = "00:01:05,500" ∧ format_vtt_time (131/2) = "00:01:05.500" ∧
    format_srt_time (281/4) = "00:01:10,250" ∧ format_vtt_time (281/4) = "00:01:10.250" := by
  have h1 := format_time_millisecond_exact 65500 (by norm_num)
  have h2 := format_time_millisecond_exact 70250 (by norm_num)
  have e1 : ((65500:Nat):ℚ)/1000 = 131/2 := by norm_num
  have e2 : ((70250:Nat):ℚ)/1000 = 281/4 := by norm_num
  rw [e1] at h1
  rw [e2] at h2
  refine ⟨?_, ?_, ?_, ?_⟩
  · rw [h1.1]; rfl
  · rw [h1.2.1]; rfl
  · rw [h2.1]; rfl
  · rw [h2.2.1]; rfl

end ArisVideo
